import Mathlib

/-!
Verification of the dot-for-dbt command-line wrapper.

This file gives a shallow embedding, in Lean, of the configuration and
build-orchestration core of the `dot` wrapper around dbt:

* scalar YAML values (`Val`), insertion-ordered string-keyed dictionaries
  (`Dict`, association lists) with Python `dict` update semantics;
* the allow-list table `DBT_COMMAND_ARGS` and the argument filter
  `filter_allowed_args` from `dot.py`;
* the context merge `resolve_context` and command assembly
  `dbt_command_list` from `dot.py`;
* the environment token parser from `cli.py`;
* the worktree manager `create_worktree` from `git.py`, as a function on an
  explicit repository state;
* the profile isolation step from `profiles.py`;
* the evolved configuration loader and environment resolver
  (`load_config` / `resolve_environment`), whose module is exercised by the
  repository test-suite; these are modelled from the specification.
-/

namespace DotSpec

/-- Scalar values as produced by a standard YAML deserializer: strings,
integers, booleans, and null. -/
inductive Val where
  | vStr (s : String)
  | vInt (n : Int)
  | vBool (b : Bool)
  | vNone
deriving DecidableEq, Repr

/-- Insertion-ordered dictionary with string keys, as a Python `dict`:
an association list whose keys are unique in practice. -/
abbrev Dict (α : Type) : Type := List (String × α)

/-- Leftmost lookup in a dictionary, `d.get(k)` / `d[k]`. -/
def dictGet {α : Type} : Dict α → String → Option α
  | [], _ => none
  | (k0, v) :: rest, k => if k0 = k then some v else dictGet rest k

/-- Python `d[k] = v`: replace the value in place if the key is present,
otherwise append the new pair at the end. -/
def dictInsert {α : Type} : Dict α → String → α → Dict α
  | [], k, v => [(k, v)]
  | (k0, v0) :: rest, k, v =>
      if k0 = k then (k0, v) :: rest else (k0, v0) :: dictInsert rest k v

/-- Python `d.update(e)`: insert every pair of `e` into `d`, in order. -/
def dictUpdate {α : Type} (d e : Dict α) : Dict α :=
  e.foldl (fun acc p => dictInsert acc p.1 p.2) d

/-- Python `k in d`. -/
def dictHasKey {α : Type} (d : Dict α) (k : String) : Bool :=
  d.any (fun p => p.1 == k)

/-- Python `d.pop(k, None)`: drop the (unique) entry with key `k`. -/
def dictRemove {α : Type} : Dict α → String → Dict α
  | [], _ => []
  | (k0, v0) :: rest, k => if k0 = k then rest else (k0, v0) :: dictRemove rest k

/-- Boolean membership in a list of strings, `x in xs`. -/
def memb (xs : List String) (k : String) : Bool :=
  xs.any (fun a => a == k)

/-- The keys of a dictionary are pairwise distinct; every dictionary produced
by a YAML deserializer or by Python `dict` operations satisfies this. -/
def NodupKeys {α : Type} (d : Dict α) : Prop :=
  (d.map Prod.fst).Nodup

instance {α : Type} (d : Dict α) : Decidable (NodupKeys d) := by
  unfold NodupKeys; infer_instance

/-- First-some choice on options; `oor a b` is `a` unless `a` is `none`. -/
def oor {α : Type} : Option α → Option α → Option α
  | some v, _ => some v
  | none, b => b

/-- Lookup that prefers the rightmost binding, used to describe
`dictUpdate` results on dictionaries with duplicate keys. -/
def lastGet {α : Type} (d : Dict α) (k : String) : Option α :=
  dictGet d.reverse k

/-- A value of a context entry in `dot.py`: either a scalar or a sub-mapping
(the `vars` entry maps to a dictionary of variable values). -/
inductive CVal where
  | s (v : Val)
  | d (m : Dict Val)
deriving DecidableEq, Repr

/-- A node of the `context` section of `vars.yml` in `dot.py`: the `default`
key maps to an environment-name string, the other keys map to
context dictionaries. -/
inductive CtxNode where
  | nstr (s : String)
  | ndict (m : Dict CVal)
deriving DecidableEq, Repr

/-- The allow-list table `DBT_COMMAND_ARGS` of `dot.py`, verbatim. -/
def DBT_COMMAND_ARGS : Dict (List String) :=
  [ ("build", ["--select", "--exclude", "--selector", "--resource-type", "--defer", "--vars", "--target"])
  , ("clean", ["--vars", "--target"])
  , ("clone", ["--vars", "--target"])
  , ("compile", ["--select", "--exclude", "--selector", "--inline", "--vars", "--target"])
  , ("debug", ["--vars", "--target"])
  , ("deps", ["--vars", "--target"])
  , ("docs", ["--select", "--exclude", "--selector", "--vars", "--target"])
  , ("init", ["--vars", "--target"])
  , ("list", ["--select", "--exclude", "--selector", "--resource-type", "--vars", "--target"])
  , ("parse", ["--vars", "--target"])
  , ("retry", ["--vars", "--target"])
  , ("run", ["--select", "--exclude", "--selector", "--defer", "--vars", "--target"])
  , ("run-operation", ["--args", "--vars", "--target"])
  , ("seed", ["--select", "--exclude", "--selector", "--vars", "--target"])
  , ("show", ["--select", "--vars", "--target"])
  , ("snapshot", ["--select", "--exclude", "--selector", "--vars", "--target"])
  , ("source", ["--vars", "--target"])
  , ("test", ["--select", "--exclude", "--selector", "--defer", "--vars", "--target"])
  ]

/-- Python `s.lstrip('-')`: drop every leading dash. -/
def stripDashes (s : String) : String :=
  (s.toList.dropWhile (fun c => c == '-')).asString

/-- The set of argument keys allowed for a subcommand, as computed in
`_filter_allowed_args`: `set(a.lstrip('-') for a in DBT_COMMAND_ARGS.get(name, []))`. -/
def allowedArgs (dbt_command_name : String) : List String :=
  ((dictGet DBT_COMMAND_ARGS dbt_command_name).getD []).map stripDashes

/-- `_filter_allowed_args` of `dot.py`: keep exactly the context entries whose
key is in the allow-list of the subcommand. -/
def filter_allowed_args {α : Type} (dbt_command_name : String) (context : Dict α) : Dict α :=
  context.filter (fun p => memb (allowedArgs dbt_command_name) p.1)

/-- The context dictionary stored under key `k`, or empty:
`config_context.get(k, {})` where a dictionary is expected. -/
def ctxDict (config_context : Dict CtxNode) (k : String) : Dict CVal :=
  match dictGet config_context k with
  | some (.ndict m) => m
  | _ => []

/-- `_resolve_context` of `dot.py`: substitute the default context name,
reject an unknown context name, then merge the `all` context with the
selected context by plain `dict.update` (the selected context wins
wholesale, key by key at the top level). -/
def resolve_context (config_context : Dict CtxNode) (active_context : Option String) :
    Except String (Dict CVal) :=
  let default_name : Option String :=
    match dictGet config_context "default" with
    | some (.nstr s) => some s
    | _ => none
  let active : Option String :=
    match active_context with
    | none => default_name
    | some s => some s
  let truthy : Bool :=
    match active with
    | none => false
    | some s => !(s == "")
  if truthy && (config_context.isEmpty || !(dictHasKey config_context (active.getD ""))) then
    .error ("Context " ++ active.getD "" ++ " not found in vars.yml.")
  else
    let context_all := ctxDict config_context "all"
    let context_selected :=
      match active with
      | none => []
      | some s => ctxDict config_context s
    .ok (dictUpdate (dictUpdate [] context_all) context_selected)

/-- Python `str(..)` on a scalar value. -/
def pyStr : Val → String
  | .vStr s => s
  | .vInt n => toString n
  | .vBool true => "True"
  | .vBool false => "False"
  | .vNone => "None"

/-- A single-quote character, for Python `repr` output. -/
def sq : String := (Char.ofNat 39).toString

/-- Python `repr(..)` on a scalar value. -/
def pyRepr : Val → String
  | .vStr s => sq ++ s ++ sq
  | .vInt n => toString n
  | .vBool true => "True"
  | .vBool false => "False"
  | .vNone => "None"

/-- Python `str(..)` on a dictionary of scalars. -/
def pyDictRepr (m : Dict Val) : String :=
  "\x7b" ++ String.intercalate ", " (m.map (fun p => sq ++ p.1 ++ sq ++ ": " ++ pyRepr p.2)) ++ "\x7d"

/-- Python `str(..)` on a context value. -/
def pyStrC : CVal → String
  | .s v => pyStr v
  | .d m => pyDictRepr m

/-- JSON encoding of a scalar, as `json.dumps` renders it. -/
def jsonVal : Val → String
  | .vStr s => "\"" ++ s ++ "\""
  | .vInt n => toString n
  | .vBool true => "true"
  | .vBool false => "false"
  | .vNone => "null"

/-- JSON encoding of a flat dictionary of scalars, as `json.dumps` renders it. -/
def jsonDumps (m : Dict Val) : String :=
  "\x7b" ++ String.intercalate ", " (m.map (fun p => "\"" ++ p.1 ++ "\": " ++ jsonVal p.2)) ++ "\x7d"

/-- The guard `v is not None and v != ""` of the rendering loop in
`_dbt_command`; in Python a non-string value is never equal to `""`. -/
def pyTruthyArg : CVal → Bool
  | .s .vNone => false
  | .s (.vStr s) => !(s == "")
  | .s _ => true
  | .d _ => true

/-- One iteration of the rendering loop in `_dbt_command`: a boolean `True`
value becomes a bare flag, a boolean `False` contributes nothing, and any
other value passes the `v is not None and v != ""` guard before being
rendered as a flag followed by its stringification. -/
def renderArgC (k : String) (v : CVal) : List String :=
  match v with
  | .s (.vBool b) => if b then ["--" ++ k] else []
  | v => if pyTruthyArg v then ["--" ++ k, pyStrC v] else []

/-- The rendering loop of `_dbt_command` over the remaining context entries. -/
def renderLoop : Dict CVal → List String
  | [] => []
  | (k, v) :: rest => renderArgC k v ++ renderLoop rest

/-- The `vars` sub-dictionary of a filtered context:
`filtered_context.get("vars", {})`. -/
def varsOf (filtered_context : Dict CVal) : Dict Val :=
  match dictGet filtered_context "vars" with
  | some (.d m) => m
  | _ => []

/-- `_dbt_command` of `dot.py`: filter the context, pop `vars` into a JSON
flag when non-empty, render the remaining entries, then append the
passthrough arguments. -/
def dbt_command_list (dbt_command_name : String) (context : Dict CVal)
    (passthrough_args : List String) : List String :=
  let filtered_context := filter_allowed_args dbt_command_name context
  let vars := varsOf filtered_context
  let rest := dictRemove filtered_context "vars"
  (["dbt", dbt_command_name] ++
      (if 0 < vars.length then ["--vars=" ++ jsonDumps vars] else [])) ++
    renderLoop rest ++ passthrough_args

/-- Python whitespace recognized by `str.strip()`. -/
def isPySpace (c : Char) : Bool :=
  (c == ' ') || (c == '\t') || (c == '\n') || (c == '\r') || (c == '\x0b') || (c == '\x0c')

/-- Python `s.strip()`: drop leading and trailing whitespace. -/
def pyStrip (s : String) : String :=
  (((s.toList.dropWhile isPySpace).reverse.dropWhile isPySpace).reverse).asString

/-- Python `"@" in s` for the environment token guard in `cli.py`. -/
def containsAt (s : String) : Bool :=
  s.toList.any (fun c => c == '@')

/-- Python `s.split("@", 1)`: the part before the first `@` and everything
after it (only called when `@` occurs in `s`). -/
def splitFirstAt (s : String) : String × String :=
  ((s.toList.takeWhile (fun c => !(c == '@'))).asString,
   ((s.toList.dropWhile (fun c => !(c == '@'))).drop 1).asString)

/-- The environment token parsing of `cli.py` (`app`, around the
`active_context.split("@", 1)` block): when the token is non-empty and
contains `@`, split on the first `@`; a whitespace-only part on either side
is normalized to `None`. Returns `(active_context, gitref)`. -/
def parse_env_token (token : Option String) : Option String × Option String :=
  match token with
  | none => (none, none)
  | some t =>
      if (!(t == "")) && containsAt t then
        let p := splitFirstAt t
        ((if pyStrip p.1 == "" then none else some p.1),
         (if pyStrip p.2 == "" then none else some p.2))
      else (some t, none)

/-- Repository state seen by `create_worktree` in `git.py`: the ref
resolution backend, the registered worktree names (pygit2
`lookup_worktree` succeeds exactly on these), the set of existing
directories, and the repository working directory. -/
structure GitState where
  resolve : String → Option String
  worktrees : List String
  dirs : List String
  workdir : String

/-- The canonical worktree path of a commit: `workdir/.dot/<hash>/worktree`. -/
def worktreePath (workdir hash : String) : String :=
  workdir ++ "/.dot/" ++ hash ++ "/worktree"

/-- `create_worktree` of `git.py` as a state transformer: resolve the ref;
if a worktree named after the commit hash is already registered, return its
canonical path unchanged; otherwise fail if the directory already exists,
else register a fresh worktree (the checkout). Returns the new state, the
worktree path, and the full commit hash. -/
def create_worktree (st : GitState) (gitref : String) :
    Except String (GitState × String × String) :=
  match st.resolve gitref with
  | none => .error ("Reference " ++ gitref ++ " not found in repository")
  | some h =>
      let wp := worktreePath st.workdir h
      if h ∈ st.worktrees then
        .ok (st, wp, h)
      else if wp ∈ st.dirs then
        .error ("Worktree directory already exists: " ++ wp)
      else
        .ok ({ st with worktrees := h :: st.worktrees, dirs := wp :: st.dirs }, wp, h)

/-- A dbt connection profile as read by `profiles.py`: only its `outputs`
section is consulted, and its presence is checked. -/
structure ProfileRec where
  outputs : Option (Dict (Dict Val))
deriving DecidableEq, Repr

/-- Python `s[:8]`. -/
def take8 (s : String) : String :=
  (s.toList.take 8).asString

/-- The pure core of `write_isolated_profiles_yml` in `profiles.py`: select
the declared profile and the active output block, then unconditionally set
`schema` to `<existing schema or dbt>_<short hash>`; the result is the
profile name, the target name, and the rewritten output block. -/
def write_isolated_profile (all_profiles : Dict ProfileRec) (profile_name : Option String)
    (active_context : String) (commit_hash : String) :
    Except String (String × String × Dict Val) :=
  let short_hash := take8 commit_hash
  let pname := match profile_name with
    | none => "None"
    | some s => s
  match profile_name.bind (dictGet all_profiles) with
  | none => .error ("Profile " ++ pname ++ " not found in profiles.yml.")
  | some profile =>
      match profile.outputs with
      | none => .error ("Profile " ++ pname ++ " does not have an outputs section")
      | some outputs =>
          match dictGet outputs active_context with
          | none => .error ("Target " ++ active_context ++ " not found in profile " ++ pname ++ " outputs.")
          | some target =>
              let schemaBase := match dictGet target "schema" with
                | some v => pyStr v
                | none => "dbt"
              .ok (pname, active_context,
                   dictInsert target "schema" (.vStr (schemaBase ++ "_" ++ short_hash)))

/-- A node of a parsed YAML configuration file, for the evolved
configuration loader: a scalar, a list of scalars, or a mapping. -/
inductive YNode where
  | scalar (v : Val)
  | list (xs : List Val)
  | map (m : List (String × YNode))
deriving Repr

/-- A declared project variable, per the specification data model:
optional description, optional allowed-value set, `strict` flag,
`required` flag. -/
structure VarDecl where
  description : Option String
  values : List Val
  strict : Bool
  required : Bool
deriving DecidableEq, Repr

/-- One environment layer: a mapping of CLI-flag keys to scalar values
(`args`) and a mapping of variable names to values (`vars`). -/
structure EnvLayer where
  args : Dict Val
  vars : Dict Val
deriving DecidableEq, Repr

/-- The loaded configuration, per the specification data model. -/
structure Config where
  declared_variables : Dict VarDecl
  project_environments : Dict EnvLayer
  user_environments : Dict EnvLayer
  default_environment : Option String
deriving DecidableEq, Repr

/-- A resolved environment: its (possibly absent) name and the merged
`args` and `vars` mappings. -/
structure ResolvedEnv where
  name : Option String
  args : Dict Val
  vars : Dict Val
deriving DecidableEq, Repr

/-- The scalar carried by a YAML node, if it is a scalar. -/
def toVal : YNode → Option Val
  | .scalar v => some v
  | _ => none

/-- The variable mapping of a `vars` sub-node: its scalar entries. -/
def toVarsDict : YNode → Dict Val
  | .map m => m.filterMap (fun p => (toVal p.2).map (fun v => (p.1, v)))
  | _ => []

/-- Modelled from the spec: one environment entry of a configuration file
becomes an environment layer, its `vars` sub-mapping kept separate from the
remaining (scalar) keys. -/
def toLayer : YNode → EnvLayer
  | .map m =>
      { args := m.filterMap (fun p =>
          if p.1 = "vars" then none else (toVal p.2).map (fun v => (p.1, v))),
        vars := match dictGet m "vars" with
          | some sub => toVarsDict sub
          | none => [] }
  | _ => { args := [], vars := [] }

/-- The `environment` section of a configuration file, or empty when the
file is absent or has no such section. -/
def envSection (file : Option (Dict YNode)) : Dict YNode :=
  match file with
  | none => []
  | some d =>
      match dictGet d "environment" with
      | some (.map m) => m
      | _ => []

/-- The environment mapping of a configuration file: every key of the
`environment` section except the reserved `default` name. -/
def toEnvs (sec : Dict YNode) : Dict EnvLayer :=
  (sec.filter (fun p => !(p.1 == "default"))).map (fun p => (p.1, toLayer p.2))

/-- The `default` entry of an `environment` section, when it is a string. -/
def defaultOf (sec : Dict YNode) : Option String :=
  match dictGet sec "default" with
  | some (.scalar (.vStr s)) => some s
  | _ => none

/-- Modelled from the spec: one declared variable of the project variables
file. -/
def toVarDecl : YNode → VarDecl
  | .map m =>
      { description := match dictGet m "description" with
          | some (.scalar (.vStr s)) => some s
          | _ => none,
        values := match dictGet m "values" with
          | some (.list xs) => xs
          | _ => [],
        strict := match dictGet m "strict" with
          | some (.scalar (.vBool b)) => b
          | _ => false,
        required := match dictGet m "required" with
          | some (.scalar (.vBool b)) => b
          | _ => false }
  | _ => { description := none, values := [], strict := false, required := false }

/-- The declared variables of the project variables file (its root `vars`
mapping). -/
def varsDecls (file : Option (Dict YNode)) : Dict VarDecl :=
  match file with
  | none => []
  | some d =>
      match dictGet d "vars" with
      | some (.map m) => m.map (fun p => (p.1, toVarDecl p.2))
      | _ => []

/-- The error raised when an environment-configuration file carries a
root-level `vars` key. -/
def rootVarsMsg : String :=
  "Root-level vars found in an environment configuration file; variables belong in the project variables file"

/-- Modelled from the spec: the structural check of the configuration
loader on one environment-configuration file; a root-level `vars` key is a
configuration error. An absent file is treated as empty. -/
def checkNoRootVars (file : Option (Dict YNode)) : Except String Unit :=
  match file with
  | none => .ok ()
  | some d => if dictHasKey d "vars" then .error rootVarsMsg else .ok ()

/-- Modelled from the spec: `load_config` of the evolved configuration
module `config.py`, which is exercised by the repository test-suite but
absent from the source tree. It reads the optional project variables file,
project environment file and user environment file, fails with a
`ConfigError` when a present environment file carries a root-level `vars`
key, and otherwise assembles the configuration object. -/
def load_config (varsFile projFile userFile : Option (Dict YNode)) :
    Except String Config := do
  _ ← checkNoRootVars projFile
  _ ← checkNoRootVars userFile
  .ok { declared_variables := varsDecls varsFile,
        project_environments := toEnvs (envSection projFile),
        user_environments := toEnvs (envSection userFile),
        default_environment :=
          oor (defaultOf (envSection userFile)) (defaultOf (envSection projFile)) }

/-- The environment name after substituting the configured default. -/
def resolvedName (cfg : Config) (requested : Option String) : Option String :=
  match requested with
  | none => cfg.default_environment
  | some s => some s

/-- The environment-name check of the resolver: a non-empty name must be
present in the project or the user environment mapping. -/
def envNameOk (cfg : Config) (name : Option String) : Bool :=
  match name with
  | none => true
  | some n =>
      (n == "") || dictHasKey cfg.project_environments n || dictHasKey cfg.user_environments n

/-- The layer contributed by an environment mapping for a (possibly absent)
environment name. -/
def envGet (m : Dict EnvLayer) (name : Option String) : EnvLayer :=
  match name with
  | none => { args := [], vars := [] }
  | some n => (dictGet m n).getD { args := [], vars := [] }

/-- Modelled from the spec: merging one layer into the accumulator; the
`vars` sub-mapping is merged key by key into the accumulated `vars`, never
replaced wholesale, and every non-`vars` key overwrites by key. -/
def mergeLayer (acc layer : EnvLayer) : EnvLayer :=
  { args := dictUpdate acc.args layer.args,
    vars := dictUpdate acc.vars layer.vars }

/-- Modelled from the spec: the four merge layers in low-to-high precedence
order: project `all`, project `<env>`, user `all`, user `<env>`. -/
def mergedLayers (cfg : Config) (name : Option String) : EnvLayer :=
  mergeLayer
    (mergeLayer
      (mergeLayer
        (mergeLayer { args := [], vars := [] } (envGet cfg.project_environments (some "all")))
        (envGet cfg.project_environments name))
      (envGet cfg.user_environments (some "all")))
    (envGet cfg.user_environments name)

/-- A variable has no usable value in the merged `vars`: it is absent, or
bound to null. -/
def valueMissing (vars : Dict Val) (n : String) : Bool :=
  match dictGet vars n with
  | none => true
  | some .vNone => true
  | some _ => false

/-- The `ConfigError` message for a missing required variable. -/
def requiredMsg (n : String) : String :=
  "Required variable " ++ n ++ " is not set for the selected environment"

/-- The `ConfigError` message for a strict variable with a disallowed value. -/
def invalidValueMsg (n : String) : String :=
  "Variable " ++ n ++ " has invalid value"

/-- The first declared required variable without a usable value in the
merged `vars`, in declaration order. -/
def firstMissingRequired (decls : Dict VarDecl) (vars : Dict Val) : Option String :=
  (decls.find? (fun p => p.2.required && valueMissing vars p.1)).map (fun p => p.1)

/-- The first declared strict variable whose merged value falls outside its
allowed set, in declaration order. -/
def firstInvalidStrict (decls : Dict VarDecl) (vars : Dict Val) : Option String :=
  (decls.find? (fun p =>
      p.2.strict && !p.2.values.isEmpty &&
        (match dictGet vars p.1 with
         | some v => !(p.2.values.contains v)
         | none => false))).map (fun p => p.1)

/-- The `ConfigError` message for an unknown environment name. -/
def envNotFoundMsg (n : String) : String :=
  "Environment " ++ n ++ " not found"

/-- Modelled from the spec: `resolve_environment` of the evolved
configuration module `config.py` (exercised by the repository test-suite
but absent from the source tree). Substitute the default environment name,
reject an unknown non-empty name, merge the four layers per precedence,
then validate required and strict variables against the merged `vars`. -/
def resolve_environment (cfg : Config) (requested : Option String) :
    Except String ResolvedEnv :=
  let name := resolvedName cfg requested
  if envNameOk cfg name then
    let merged := mergedLayers cfg name
    match firstMissingRequired cfg.declared_variables merged.vars with
    | some w => .error (requiredMsg w)
    | none =>
        match firstInvalidStrict cfg.declared_variables merged.vars with
        | some w => .error (invalidValueMsg w)
        | none => .ok { name := name, args := merged.args, vars := merged.vars }
  else
    .error (envNotFoundMsg ((resolvedName cfg requested).getD ""))

theorem oor_none_right {α : Type} (a : Option α) : oor a none = a := by
  cases a <;> rfl

theorem oor_assoc {α : Type} (a b c : Option α) : oor (oor a b) c = oor a (oor b c) := by
  cases a <;> rfl

theorem dictGet_append {α : Type} (a b : Dict α) (k : String) :
    dictGet (a ++ b) k = oor (dictGet a k) (dictGet b k) := by
  induction a with
  | nil => rfl
  | cons p rest ih =>
      obtain ⟨k0, v⟩ := p
      by_cases h : k0 = k
      · simp [dictGet, h, oor]
      · simp [dictGet, h, ih]

theorem dictGet_insert {α : Type} (d : Dict α) (k : String) (v : α) (q : String) :
    dictGet (dictInsert d k v) q = if q = k then some v else dictGet d q := by
  induction d with
  | nil =>
      by_cases h : q = k
      · simp [dictInsert, dictGet, h]
      · have h2 : ¬(k = q) := fun hh => h hh.symm
        simp [dictInsert, dictGet, h, h2]
  | cons p rest ih =>
      obtain ⟨k0, v0⟩ := p
      by_cases h0 : k0 = k
      · subst h0
        by_cases h : q = k0
        · subst h; simp [dictInsert, dictGet]
        · have h2 : ¬(k0 = q) := fun hh => h hh.symm
          simp [dictInsert, dictGet, h, h2]
      · by_cases h : k0 = q
        · subst h
          simp [dictInsert, dictGet, h0]
        · simp [dictInsert, dictGet, h0, h, ih]

theorem dictGet_update {α : Type} (d e : Dict α) (k : String) :
    dictGet (dictUpdate d e) k = oor (lastGet e k) (dictGet d k) := by
  induction e generalizing d with
  | nil => simp [dictUpdate, lastGet, dictGet, oor]
  | cons p e ih =>
      obtain ⟨k0, v0⟩ := p
      have h1 : dictUpdate d ((k0, v0) :: e) = dictUpdate (dictInsert d k0 v0) e := rfl
      have h2 : lastGet ((k0, v0) :: e) k = oor (lastGet e k) (dictGet [(k0, v0)] k) := by
        unfold lastGet
        rw [List.reverse_cons, dictGet_append]
      rw [h1, ih, h2, oor_assoc, dictGet_insert]
      congr 1
      by_cases h : k = k0
      · subst h; simp [dictGet, oor]
      · have h2 : ¬(k0 = k) := fun hh => h hh.symm
        simp [dictGet, h2, h, oor]

theorem dictGet_eq_none {α : Type} (d : Dict α) (k : String) (h : k ∉ d.map Prod.fst) :
    dictGet d k = none := by
  induction d with
  | nil => rfl
  | cons p rest ih =>
      simp only [List.map_cons, List.mem_cons, not_or] at h
      have hne : ¬(p.1 = k) := fun hh => h.1 hh.symm
      simpa [dictGet, hne] using ih h.2

theorem lastGet_eq_dictGet {α : Type} (d : Dict α) (k : String) (h : NodupKeys d) :
    lastGet d k = dictGet d k := by
  induction d with
  | nil => rfl
  | cons p rest ih =>
      obtain ⟨k0, v0⟩ := p
      unfold NodupKeys at h
      simp only [List.map_cons, List.nodup_cons] at h
      have hlast : lastGet ((k0, v0) :: rest) k = oor (lastGet rest k) (dictGet [(k0, v0)] k) := by
        unfold lastGet
        rw [List.reverse_cons, dictGet_append]
      rw [hlast, ih h.2]
      by_cases hk : k0 = k
      · subst hk
        rw [dictGet_eq_none rest k0 h.1]
        simp [dictGet, oor]
      · simp [dictGet, hk, oor_none_right]

theorem mem_of_dictGet {α : Type} (d : Dict α) (k : String) (v : α)
    (h : dictGet d k = some v) : (k, v) ∈ d := by
  induction d with
  | nil => simp [dictGet] at h
  | cons p rest ih =>
      obtain ⟨k0, v0⟩ := p
      by_cases hk : k0 = k
      · subst hk
        simp [dictGet] at h
        simp [h]
      · simp [dictGet, hk] at h
        exact List.mem_cons_of_mem _ (ih h)

theorem dictGet_of_mem {α : Type} (d : Dict α) (k : String) (v : α)
    (hn : NodupKeys d) (hm : (k, v) ∈ d) : dictGet d k = some v := by
  induction d with
  | nil => simp at hm
  | cons p rest ih =>
      obtain ⟨k0, v0⟩ := p
      unfold NodupKeys at hn
      simp only [List.map_cons, List.nodup_cons] at hn
      rcases List.mem_cons.mp hm with heq | hmem
      · obtain ⟨h1, h2⟩ := Prod.mk.injEq .. ▸ heq
        cases heq
        simp [dictGet]
      · have hk : ¬(k0 = k) := by
          intro hh
          subst hh
          exact hn.1 (List.mem_map.mpr ⟨(k0, v), hmem, rfl⟩)
        simp [dictGet, hk]
        exact ih hn.2 hmem

theorem memb_iff (xs : List String) (k : String) : memb xs k = true ↔ k ∈ xs := by
  simp [memb, List.any_eq_true, beq_iff_eq]

theorem dictGet_filter {α : Type} (p : String → Bool) (d : Dict α) (k : String)
    (hp : p k = true) :
    dictGet (d.filter (fun q => p q.1)) k = dictGet d k := by
  induction d with
  | nil => rfl
  | cons q rest ih =>
      obtain ⟨k0, v0⟩ := q
      by_cases hk : k0 = k
      · subst hk
        simp [List.filter, hp, dictGet]
      · by_cases hq : p k0
        · simp [List.filter, hq, dictGet, hk, ih]
        · simp [List.filter, hq, dictGet, hk, ih]

theorem dictGet_update4 {α : Type} (a b c e : Dict α) (k : String)
    (ha : NodupKeys a) (hb : NodupKeys b) (hc : NodupKeys c) (he : NodupKeys e) :
    dictGet (dictUpdate (dictUpdate (dictUpdate (dictUpdate [] a) b) c) e) k =
      oor (dictGet e k) (oor (dictGet c k) (oor (dictGet b k) (dictGet a k))) := by
  rw [dictGet_update, dictGet_update, dictGet_update, dictGet_update,
      lastGet_eq_dictGet a k ha, lastGet_eq_dictGet b k hb,
      lastGet_eq_dictGet c k hc, lastGet_eq_dictGet e k he]
  have hnil : dictGet ([] : Dict α) k = none := rfl
  rw [hnil, oor_none_right]

theorem takeWhile_append_all {α : Type} (p : α → Bool) (l m : List α)
    (h : ∀ c ∈ l, p c = true) :
    (l ++ m).takeWhile p = l ++ m.takeWhile p := by
  induction l with
  | nil => rfl
  | cons a l ih =>
      have ha : p a = true := h a (List.mem_cons_self a l)
      simp [List.takeWhile_cons, ha]
      exact ih (fun c hc => h c (List.mem_cons_of_mem a hc))

theorem dropWhile_append_all {α : Type} (p : α → Bool) (l m : List α)
    (h : ∀ c ∈ l, p c = true) :
    (l ++ m).dropWhile p = m.dropWhile p := by
  induction l with
  | nil => rfl
  | cons a l ih =>
      have ha : p a = true := h a (List.mem_cons_self a l)
      simp [List.dropWhile_cons, ha]
      exact ih (fun c hc => h c (List.mem_cons_of_mem a hc))

/-- Claim C10: when no environment is requested and no default environment
name is configured, `_resolve_context` does not fail and returns the merge
of the `all` layer alone, so `all`-layer settings still reach the command
line. -/
theorem claim_c10_all_layer_without_default (config_context : Dict CtxNode) (k : String)
    (hdef : dictGet config_context "default" = none)
    (hnodup : NodupKeys (ctxDict config_context "all")) :
    ∃ d, resolve_context config_context none = .ok d ∧
      dictGet d k = dictGet (ctxDict config_context "all") k := by
  refine ⟨dictUpdate [] (ctxDict config_context "all"), ?_, ?_⟩
  · unfold resolve_context
    rw [hdef]
    rfl
  · rw [dictGet_update, lastGet_eq_dictGet _ _ hnodup]
    exact oor_none_right _


/-- Claim C10 witness: a concrete configuration with an `all` context and no
default still resolves, to the `all` layer. -/
theorem claim_c10_all_layer_without_default_witness :
    ∃ d, resolve_context
        [("all", CtxNode.ndict [("target", CVal.s (Val.vStr "dev")), ("vars", CVal.d [("x", Val.vInt 1)])])]
        none = .ok d ∧
      dictGet d "target" =
        dictGet (ctxDict [("all", CtxNode.ndict [("target", CVal.s (Val.vStr "dev")), ("vars", CVal.d [("x", Val.vInt 1)])])] "all") "target" :=
  claim_c10_all_layer_without_default _ "target" (by decide) (by decide)

/-- Claim C2: for a subcommand present in `DBT_COMMAND_ARGS`, the filtered
context contains no key outside that subcommand's allow-list, and the `vars`
entry of the context is preserved verbatim. -/
theorem claim_c2_filter_allow_list {α : Type} (cmd : String) (lst : List String)
    (ctx : Dict α) (k : String) (v : α)
    (htable : dictGet DBT_COMMAND_ARGS cmd = some lst) :
    ((k, v) ∈ filter_allowed_args cmd ctx → ∃ flag, flag ∈ lst ∧ stripDashes flag = k) ∧
    (dictGet ctx "vars" = some v → dictGet (filter_allowed_args cmd ctx) "vars" = some v) := by
  have hallowed : allowedArgs cmd = lst.map stripDashes := by
    unfold allowedArgs
    rw [htable]
    rfl
  constructor
  · intro hmem
    have h1 := List.mem_filter.mp hmem
    have h2 : memb (allowedArgs cmd) k = true := h1.2
    rw [hallowed] at h2
    have h3 : k ∈ lst.map stripDashes := (memb_iff _ _).mp h2
    obtain ⟨flag, hf, he⟩ := List.mem_map.mp h3
    exact ⟨flag, hf, he⟩
  · intro hv
    have hvars : memb (allowedArgs cmd) "vars" = true := by
      rw [hallowed]
      apply (memb_iff _ _).mpr
      have hmem2 : (cmd, lst) ∈ DBT_COMMAND_ARGS := mem_of_dictGet _ _ _ htable
      have hall : ∀ p ∈ DBT_COMMAND_ARGS, memb (p.2.map stripDashes) "vars" = true := by decide
      exact (memb_iff _ _).mp (hall (cmd, lst) hmem2)
    unfold filter_allowed_args
    rw [dictGet_filter _ _ _ hvars]
    exact hv

/-- Claim C2 witness: for the `run` subcommand, a context with an unlisted
key and a `vars` mapping filters to allow-listed keys only and keeps `vars`. -/
theorem claim_c2_filter_allow_list_witness :
    ((("vars" : String), CVal.d [("x", Val.vInt 1)]) ∈
        filter_allowed_args "run"
          [("select", CVal.s (Val.vStr "m")), ("bogus", CVal.s (Val.vStr "y")),
           ("vars", CVal.d [("x", Val.vInt 1)])] →
      ∃ flag, flag ∈ ["--select", "--exclude", "--selector", "--defer", "--vars", "--target"] ∧
        stripDashes flag = "vars") ∧
    (dictGet
        [("select", CVal.s (Val.vStr "m")), ("bogus", CVal.s (Val.vStr "y")),
         ("vars", CVal.d [("x", Val.vInt 1)])] "vars" = some (CVal.d [("x", Val.vInt 1)]) →
      dictGet
        (filter_allowed_args "run"
          [("select", CVal.s (Val.vStr "m")), ("bogus", CVal.s (Val.vStr "y")),
           ("vars", CVal.d [("x", Val.vInt 1)])]) "vars" = some (CVal.d [("x", Val.vInt 1)])) :=
  claim_c2_filter_allow_list "run" _ _ "vars" _ (by decide)

/-- Claim C9: in the assembled command list, a boolean `True` args entry
renders as a single bare flag, boolean `False` / null / empty-string
entries contribute no tokens, and every other entry renders as the flag
followed by its stringified value. -/
theorem claim_c9_arg_rendering (name k : String) (v : Val) (ctx : Dict CVal)
    (pass : List String) :
    (dbt_command_list name ctx pass =
        (["dbt", name] ++
            (if 0 < (varsOf (filter_allowed_args name ctx)).length then
              ["--vars=" ++ jsonDumps (varsOf (filter_allowed_args name ctx))]
            else [])) ++
          renderLoop (dictRemove (filter_allowed_args name ctx) "vars") ++ pass) ∧
    (renderArgC k (.s (.vBool true)) = ["--" ++ k]) ∧
    (renderArgC k (.s (.vBool false)) = []) ∧
    (renderArgC k (.s .vNone) = []) ∧
    (renderArgC k (.s (.vStr "")) = []) ∧
    (¬(v = .vBool true) → ¬(v = .vBool false) → ¬(v = .vNone) → ¬(v = .vStr "") →
      renderArgC k (.s v) = ["--" ++ k, pyStr v]) ∧
    (renderLoop ((k, .s v) :: ctx) = renderArgC k (.s v) ++ renderLoop ctx) := by
  refine ⟨rfl, rfl, rfl, rfl, rfl, ?_, rfl⟩
  intro h1 h2 h3 h4
  cases v with
  | vStr s =>
      have hs : ¬(s = "") := fun hh => h4 (by rw [hh])
      simp [renderArgC, pyTruthyArg, pyStrC, pyStr, hs]
  | vInt n => rfl
  | vBool b =>
      cases b with
      | false => exact absurd rfl h2
      | true => exact absurd rfl h1
  | vNone => exact absurd rfl h3

/-- Claim C9 witness: the integer value 0 (falsy in Python, but neither
boolean, null nor empty string) still renders as a flag with value. -/
theorem claim_c9_arg_rendering_witness :
    renderArgC "threads" (CVal.s (Val.vInt 0)) = ["--threads", "0"] :=
  (claim_c9_arg_rendering "run" "threads" (Val.vInt 0) [] []).2.2.2.2.2.1
    (by decide) (by decide) (by decide) (by decide)

/-- Claim C8: worktree creation is idempotent per commit hash: with the
worktree for the resolved commit already registered, `create_worktree`
returns the canonical path with the state unchanged (no re-checkout); with
the target directory existing but no registered worktree, it fails with a
descriptive error; and a second call after any successful call returns the
same path without changing the state. -/
theorem claim_c8_worktree_idempotent (st st2 : GitState) (gitref h p hh : String)
    (hres : st.resolve gitref = some h) :
    (h ∈ st.worktrees →
        create_worktree st gitref = .ok (st, worktreePath st.workdir h, h)) ∧
    (h ∉ st.worktrees →
        worktreePath st.workdir h ∈ st.dirs →
        create_worktree st gitref =
          .error ("Worktree directory already exists: " ++ worktreePath st.workdir h)) ∧
    (create_worktree st gitref = .ok (st2, p, hh) →
        create_worktree st2 gitref = .ok (st2, p, hh)) := by
  refine ⟨?_, ?_, ?_⟩
  · intro hc
    unfold create_worktree
    rw [hres]
    simp [hc]
  · intro hc hd
    unfold create_worktree
    rw [hres]
    simp [hc, hd]
  · intro hok
    unfold create_worktree at hok ⊢
    rw [hres] at hok
    by_cases hc : h ∈ st.worktrees
    · simp [hc] at hok
      obtain ⟨h1, h2, h3⟩ := hok
      subst h1
      subst h2
      subst h3
      rw [hres]
      simp [hc]
    · by_cases hd : worktreePath st.workdir h ∈ st.dirs
      · simp [hc, hd] at hok
      · simp [hc, hd] at hok
        obtain ⟨h1, h2, h3⟩ := hok
        subst h1
        subst h2
        subst h3
        simp [hres, hc, hd]

/-- Claim C8 witness: concrete repository states exercising the registered
branch. -/
theorem claim_c8_worktree_idempotent_witness :
    ("aaaa" ∈ (["aaaa"] : List String) →
        create_worktree
          { resolve := fun r => if r = "HEAD" then some "aaaa" else none,
            worktrees := ["aaaa"], dirs := ["/repo/.dot/aaaa/worktree"], workdir := "/repo" }
          "HEAD" =
          .ok ({ resolve := fun r => if r = "HEAD" then some "aaaa" else none,
                 worktrees := ["aaaa"], dirs := ["/repo/.dot/aaaa/worktree"], workdir := "/repo" },
               worktreePath "/repo" "aaaa", "aaaa")) ∧
    ("aaaa" ∉ (["aaaa"] : List String) →
        worktreePath "/repo" "aaaa" ∈ (["/repo/.dot/aaaa/worktree"] : List String) →
        create_worktree
          { resolve := fun r => if r = "HEAD" then some "aaaa" else none,
            worktrees := ["aaaa"], dirs := ["/repo/.dot/aaaa/worktree"], workdir := "/repo" }
          "HEAD" =
          .error ("Worktree directory already exists: " ++ worktreePath "/repo" "aaaa")) ∧
    (create_worktree
        { resolve := fun r => if r = "HEAD" then some "aaaa" else none,
          worktrees := ["aaaa"], dirs := ["/repo/.dot/aaaa/worktree"], workdir := "/repo" }
        "HEAD" =
        .ok ({ resolve := fun r => if r = "HEAD" then some "aaaa" else none,
               worktrees := ["aaaa"], dirs := ["/repo/.dot/aaaa/worktree"], workdir := "/repo" },
             "/repo/.dot/aaaa/worktree", "aaaa") →
      create_worktree
        { resolve := fun r => if r = "HEAD" then some "aaaa" else none,
          worktrees := ["aaaa"], dirs := ["/repo/.dot/aaaa/worktree"], workdir := "/repo" }
        "HEAD" =
        .ok ({ resolve := fun r => if r = "HEAD" then some "aaaa" else none,
               worktrees := ["aaaa"], dirs := ["/repo/.dot/aaaa/worktree"], workdir := "/repo" },
             "/repo/.dot/aaaa/worktree", "aaaa")) :=
  claim_c8_worktree_idempotent
    { resolve := fun r => if r = "HEAD" then some "aaaa" else none,
      worktrees := ["aaaa"], dirs := ["/repo/.dot/aaaa/worktree"], workdir := "/repo" }
    { resolve := fun r => if r = "HEAD" then some "aaaa" else none,
      worktrees := ["aaaa"], dirs := ["/repo/.dot/aaaa/worktree"], workdir := "/repo" }
    "HEAD" "aaaa" "/repo/.dot/aaaa/worktree" "aaaa" rfl

/-- Claim C6: the token `prod@a@b`, which contains two `@` separators, is
parsed by `cli.py` without any failure: it silently carries `a@b` into the
git ref instead of failing fast. -/
theorem claim_c6_multi_at_parses_silently :
    parse_env_token (some "prod@a@b") = (some "prod", some "a@b") := by
  decide

/-- Claim C7 counterexample: the token `dev@` (empty ref after the
separator) parses to exactly the same state as the token `dev` with no
separator at all: both yield gitref `None`, so the empty ref is not a
distinct pin-to-HEAD input. -/
theorem claim_c7_empty_ref_counterexample :
    parse_env_token (some "dev@") = parse_env_token (some "dev") ∧
    parse_env_token (some "dev@") = (some "dev", none) := by
  constructor
  · decide
  · decide

/-- Claim C7 (amended): for every non-empty, non-whitespace token without a
`@`, appending a lone `@` parses to the same result as the bare token: the
empty ref is collapsed into the no-ref state. -/
theorem claim_c7_empty_ref_collapsed (s : String)
    (h1 : containsAt s = false) (h2 : ¬(pyStrip s = "")) :
    parse_env_token (some (s ++ "@")) = (some s, none) ∧
    parse_env_token (some (s ++ "@")) = parse_env_token (some s) := by
  have hdata : (s ++ "@").toList = s.toList ++ ['@'] := rfl
  have hforall : ∀ c ∈ s.toList, (!(c == '@')) = true := by
    intro c hc
    simp only [containsAt, List.any_eq_false] at h1
    simpa using h1 c hc
  have hsplit : splitFirstAt (s ++ "@") = (s, "") := by
    unfold splitFirstAt
    rw [hdata, takeWhile_append_all _ _ _ hforall, dropWhile_append_all _ _ _ hforall]
    have ht : List.takeWhile (fun c => !(c == '@')) ['@'] = [] := rfl
    have hd : List.dropWhile (fun c => !(c == '@')) ['@'] = ['@'] := rfl
    rw [ht, hd]
    simp [List.asString]
  have hne : ((s ++ "@") == "") = false := by
    apply beq_eq_false_iff_ne.mpr
    intro hh
    have hh2 : (s ++ "@").toList = ("" : String).toList := by rw [hh]
    rw [hdata] at hh2
    simp at hh2
  have hcontains : containsAt (s ++ "@") = true := by
    unfold containsAt
    rw [hdata]
    simp
  have hred : ∀ t : String, parse_env_token (some t) =
      if (!(t == "") && containsAt t) = true then
        ((if (pyStrip (splitFirstAt t).1 == "") = true then none else some (splitFirstAt t).1),
         (if (pyStrip (splitFirstAt t).2 == "") = true then none else some (splitFirstAt t).2))
      else (some t, none) := fun t => rfl
  have hleft : parse_env_token (some (s ++ "@")) = (some s, none) := by
    rw [hred, hne, hcontains, hsplit]
    have hstrip : (pyStrip s == "") = false := beq_eq_false_iff_ne.mpr h2
    have hstripEmpty : (pyStrip "" == "") = true := rfl
    simp [hstrip, hstripEmpty]
  refine ⟨hleft, ?_⟩
  rw [hleft, hred, h1]
  simp

/-- Claim C7 (amended) witness: `dev@` collapses to the same parse as `dev`. -/
theorem claim_c7_empty_ref_collapsed_witness :
    parse_env_token (some ("dev" ++ "@")) = (some "dev", none) ∧
    parse_env_token (some ("dev" ++ "@")) = parse_env_token (some "dev") :=
  claim_c7_empty_ref_collapsed "dev" (by decide) (by decide)

/-- Claim C4: evaluated on an output block that carries both `schema` and
`dataset`, the profile isolation of `profiles.py` does not fail: it
suffixes `schema` and keeps `dataset`, although the repository's own tests
require a descriptive error in this case. -/
theorem claim_c4_both_schema_and_dataset_accepted :
    write_isolated_profile
        [("test_profile",
          { outputs := some [("dev",
              [("type", Val.vStr "postgres"), ("schema", Val.vStr "foo"),
               ("dataset", Val.vStr "bar")])] })]
        (some "test_profile") "dev" "deadbeefcafe1234" =
      .ok ("test_profile", "dev",
        [("type", Val.vStr "postgres"), ("schema", Val.vStr "foo_deadbeef"),
         ("dataset", Val.vStr "bar")]) := by
  rfl

theorem resolve_environment_ok (cfg : Config) (req : Option String) (env : ResolvedEnv)
    (h : resolve_environment cfg req = .ok env) :
    env = { name := resolvedName cfg req,
            args := (mergedLayers cfg (resolvedName cfg req)).args,
            vars := (mergedLayers cfg (resolvedName cfg req)).vars } := by
  unfold resolve_environment at h
  by_cases hok : envNameOk cfg (resolvedName cfg req)
  · rw [if_pos hok] at h
    dsimp only at h
    cases hm : firstMissingRequired cfg.declared_variables
        (mergedLayers cfg (resolvedName cfg req)).vars with
    | some w => rw [hm] at h; simp at h
    | none =>
        rw [hm] at h
        cases hs : firstInvalidStrict cfg.declared_variables
            (mergedLayers cfg (resolvedName cfg req)).vars with
        | some w => rw [hs] at h; simp at h
        | none =>
            rw [hs] at h
            simp at h
            exact h.symm
  · rw [if_neg hok] at h
    simp at h

theorem mergedLayers_vars_get (cfg : Config) (name : Option String) (k : String)
    (hv1 : NodupKeys (envGet cfg.project_environments (some "all")).vars)
    (hv2 : NodupKeys (envGet cfg.project_environments name).vars)
    (hv3 : NodupKeys (envGet cfg.user_environments (some "all")).vars)
    (hv4 : NodupKeys (envGet cfg.user_environments name).vars) :
    dictGet (mergedLayers cfg name).vars k =
      oor (dictGet (envGet cfg.user_environments name).vars k)
        (oor (dictGet (envGet cfg.user_environments (some "all")).vars k)
          (oor (dictGet (envGet cfg.project_environments name).vars k)
            (dictGet (envGet cfg.project_environments (some "all")).vars k))) := by
  unfold mergedLayers mergeLayer
  exact dictGet_update4 _ _ _ _ k hv1 hv2 hv3 hv4

theorem mergedLayers_args_get (cfg : Config) (name : Option String) (k : String)
    (ha1 : NodupKeys (envGet cfg.project_environments (some "all")).args)
    (ha2 : NodupKeys (envGet cfg.project_environments name).args)
    (ha3 : NodupKeys (envGet cfg.user_environments (some "all")).args)
    (ha4 : NodupKeys (envGet cfg.user_environments name).args) :
    dictGet (mergedLayers cfg name).args k =
      oor (dictGet (envGet cfg.user_environments name).args k)
        (oor (dictGet (envGet cfg.user_environments (some "all")).args k)
          (oor (dictGet (envGet cfg.project_environments name).args k)
            (dictGet (envGet cfg.project_environments (some "all")).args k))) := by
  unfold mergedLayers mergeLayer
  exact dictGet_update4 _ _ _ _ k ha1 ha2 ha3 ha4

/-- Claim C1: a successfully resolved environment merges the four layers
(project `all`, project env, user `all`, user env) in low-to-high
precedence, the `vars` sub-mapping merged key by key; every resolved `vars`
and `args` entry is the value from the highest-precedence layer that
defines that key. -/
theorem claim_c1_merge_precedence (cfg : Config) (req : Option String)
    (env : ResolvedEnv) (k : String)
    (hok : resolve_environment cfg req = .ok env)
    (hv1 : NodupKeys (envGet cfg.project_environments (some "all")).vars)
    (hv2 : NodupKeys (envGet cfg.project_environments (resolvedName cfg req)).vars)
    (hv3 : NodupKeys (envGet cfg.user_environments (some "all")).vars)
    (hv4 : NodupKeys (envGet cfg.user_environments (resolvedName cfg req)).vars)
    (ha1 : NodupKeys (envGet cfg.project_environments (some "all")).args)
    (ha2 : NodupKeys (envGet cfg.project_environments (resolvedName cfg req)).args)
    (ha3 : NodupKeys (envGet cfg.user_environments (some "all")).args)
    (ha4 : NodupKeys (envGet cfg.user_environments (resolvedName cfg req)).args) :
    dictGet env.vars k =
      oor (dictGet (envGet cfg.user_environments (resolvedName cfg req)).vars k)
        (oor (dictGet (envGet cfg.user_environments (some "all")).vars k)
          (oor (dictGet (envGet cfg.project_environments (resolvedName cfg req)).vars k)
            (dictGet (envGet cfg.project_environments (some "all")).vars k))) ∧
    dictGet env.args k =
      oor (dictGet (envGet cfg.user_environments (resolvedName cfg req)).args k)
        (oor (dictGet (envGet cfg.user_environments (some "all")).args k)
          (oor (dictGet (envGet cfg.project_environments (resolvedName cfg req)).args k)
            (dictGet (envGet cfg.project_environments (some "all")).args k))) := by
  have hinv := resolve_environment_ok cfg req env hok
  rw [hinv]
  exact ⟨mergedLayers_vars_get cfg _ k hv1 hv2 hv3 hv4,
         mergedLayers_args_get cfg _ k ha1 ha2 ha3 ha4⟩

/-- Claim C1 witness: the precedence chain evaluated on a concrete
configuration with all four layers populated. -/
theorem claim_c1_merge_precedence_witness :
    dictGet
        (ResolvedEnv.vars
          { name := some "dev",
            args := [("threads", Val.vInt 4), ("target", Val.vStr "dev_override")],
            vars := [("x", Val.vInt 3)] }) "x" =
      oor (dictGet (envGet [("all", { args := [], vars := [("x", Val.vInt 3)] }),
              ("dev", { args := [("target", Val.vStr "dev_override")], vars := [] })]
            (resolvedName
              { declared_variables := [],
                project_environments :=
                  [("all", { args := [("threads", Val.vInt 4)], vars := [("x", Val.vInt 1)] }),
                   ("dev", { args := [("target", Val.vStr "dev")], vars := [("x", Val.vInt 2)] })],
                user_environments :=
                  [("all", { args := [], vars := [("x", Val.vInt 3)] }),
                   ("dev", { args := [("target", Val.vStr "dev_override")], vars := [] })],
                default_environment := none } (some "dev"))).vars "x")
        (oor (dictGet (envGet [("all", { args := [], vars := [("x", Val.vInt 3)] }),
                ("dev", { args := [("target", Val.vStr "dev_override")], vars := [] })]
              (some "all")).vars "x")
          (oor (dictGet (envGet [("all", { args := [("threads", Val.vInt 4)], vars := [("x", Val.vInt 1)] }),
                  ("dev", { args := [("target", Val.vStr "dev")], vars := [("x", Val.vInt 2)] })]
                (resolvedName
                  { declared_variables := [],
                    project_environments :=
                      [("all", { args := [("threads", Val.vInt 4)], vars := [("x", Val.vInt 1)] }),
                       ("dev", { args := [("target", Val.vStr "dev")], vars := [("x", Val.vInt 2)] })],
                    user_environments :=
                      [("all", { args := [], vars := [("x", Val.vInt 3)] }),
                       ("dev", { args := [("target", Val.vStr "dev_override")], vars := [] })],
                    default_environment := none } (some "dev"))).vars "x")
            (dictGet (envGet [("all", { args := [("threads", Val.vInt 4)], vars := [("x", Val.vInt 1)] }),
                ("dev", { args := [("target", Val.vStr "dev")], vars := [("x", Val.vInt 2)] })]
              (some "all")).vars "x"))) ∧
    dictGet
        (ResolvedEnv.args
          { name := some "dev",
            args := [("threads", Val.vInt 4), ("target", Val.vStr "dev_override")],
            vars := [("x", Val.vInt 3)] }) "x" =
      oor (dictGet (envGet [("all", { args := [], vars := [("x", Val.vInt 3)] }),
              ("dev", { args := [("target", Val.vStr "dev_override")], vars := [] })]
            (resolvedName
              { declared_variables := [],
                project_environments :=
                  [("all", { args := [("threads", Val.vInt 4)], vars := [("x", Val.vInt 1)] }),
                   ("dev", { args := [("target", Val.vStr "dev")], vars := [("x", Val.vInt 2)] })],
                user_environments :=
                  [("all", { args := [], vars := [("x", Val.vInt 3)] }),
                   ("dev", { args := [("target", Val.vStr "dev_override")], vars := [] })],
                default_environment := none } (some "dev"))).args "x")
        (oor (dictGet (envGet [("all", { args := [], vars := [("x", Val.vInt 3)] }),
                ("dev", { args := [("target", Val.vStr "dev_override")], vars := [] })]
              (some "all")).args "x")
          (oor (dictGet (envGet [("all", { args := [("threads", Val.vInt 4)], vars := [("x", Val.vInt 1)] }),
                  ("dev", { args := [("target", Val.vStr "dev")], vars := [("x", Val.vInt 2)] })]
                (resolvedName
                  { declared_variables := [],
                    project_environments :=
                      [("all", { args := [("threads", Val.vInt 4)], vars := [("x", Val.vInt 1)] }),
                       ("dev", { args := [("target", Val.vStr "dev")], vars := [("x", Val.vInt 2)] })],
                    user_environments :=
                      [("all", { args := [], vars := [("x", Val.vInt 3)] }),
                       ("dev", { args := [("target", Val.vStr "dev_override")], vars := [] })],
                    default_environment := none } (some "dev"))).args "x")
            (dictGet (envGet [("all", { args := [("threads", Val.vInt 4)], vars := [("x", Val.vInt 1)] }),
                ("dev", { args := [("target", Val.vStr "dev")], vars := [("x", Val.vInt 2)] })]
              (some "all")).args "x"))) :=
  claim_c1_merge_precedence
    { declared_variables := [],
      project_environments :=
        [("all", { args := [("threads", Val.vInt 4)], vars := [("x", Val.vInt 1)] }),
         ("dev", { args := [("target", Val.vStr "dev")], vars := [("x", Val.vInt 2)] })],
      user_environments :=
        [("all", { args := [], vars := [("x", Val.vInt 3)] }),
         ("dev", { args := [("target", Val.vStr "dev_override")], vars := [] })],
      default_environment := none }
    (some "dev")
    { name := some "dev",
      args := [("threads", Val.vInt 4), ("target", Val.vStr "dev_override")],
      vars := [("x", Val.vInt 3)] }
    "x" rfl (by decide) (by decide) (by decide) (by decide)
    (by decide) (by decide) (by decide) (by decide)

/-- Claim C3: with a declared required variable, resolution fails with a
`ConfigError` naming a required variable that lacks a usable value whenever
the merged `vars` misses one; and a value supplied in the project `all`
layer alone gives the variable a usable merged value for any resolved
environment name. -/
theorem claim_c3_required_variable (cfg : Config) (req : Option String)
    (vname : String) (decl : VarDecl) (v : Val)
    (hnodupD : NodupKeys cfg.declared_variables)
    (hv1 : NodupKeys (envGet cfg.project_environments (some "all")).vars)
    (hv2 : NodupKeys (envGet cfg.project_environments (resolvedName cfg req)).vars)
    (hv3 : NodupKeys (envGet cfg.user_environments (some "all")).vars)
    (hv4 : NodupKeys (envGet cfg.user_environments (resolvedName cfg req)).vars)
    (hmem : dictGet cfg.declared_variables vname = some decl)
    (hreq : decl.required = true) :
    (envNameOk cfg (resolvedName cfg req) = true →
      valueMissing (mergedLayers cfg (resolvedName cfg req)).vars vname = true →
      ∃ w d2, dictGet cfg.declared_variables w = some d2 ∧ d2.required = true ∧
        valueMissing (mergedLayers cfg (resolvedName cfg req)).vars w = true ∧
        resolve_environment cfg req = .error (requiredMsg w)) ∧
    (dictGet (envGet cfg.project_environments (some "all")).vars vname = some v →
      ¬(v = Val.vNone) →
      dictGet (envGet cfg.project_environments (resolvedName cfg req)).vars vname = none →
      dictGet (envGet cfg.user_environments (some "all")).vars vname = none →
      dictGet (envGet cfg.user_environments (resolvedName cfg req)).vars vname = none →
      valueMissing (mergedLayers cfg (resolvedName cfg req)).vars vname = false) := by
  constructor
  · intro hok hmiss
    have hpmem : (vname, decl) ∈ cfg.declared_variables := mem_of_dictGet _ _ _ hmem
    have hpred : (fun p : String × VarDecl =>
        p.2.required && valueMissing (mergedLayers cfg (resolvedName cfg req)).vars p.1)
          (vname, decl) = true := by
      simp [hreq, hmiss]
    have hfind : (cfg.declared_variables.find? (fun p =>
        p.2.required && valueMissing (mergedLayers cfg (resolvedName cfg req)).vars p.1)).isSome := by
      rw [List.find?_isSome]
      exact ⟨(vname, decl), hpmem, hpred⟩
    obtain ⟨e, he⟩ := Option.isSome_iff_exists.mp hfind
    have hprop := List.find?_some he
    have hemem := List.mem_of_find?_eq_some he
    obtain ⟨her, hem⟩ := Bool.and_eq_true_iff.mp hprop
    have hfm : firstMissingRequired cfg.declared_variables
        (mergedLayers cfg (resolvedName cfg req)).vars = some e.1 := by
      unfold firstMissingRequired
      rw [he]
      rfl
    refine ⟨e.1, e.2, dictGet_of_mem _ _ _ hnodupD hemem, her, hem, ?_⟩
    unfold resolve_environment
    rw [if_pos hok]
    dsimp only
    rw [hfm]
  · intro h1 h2 h3 h4 h5
    have hget := mergedLayers_vars_get cfg (resolvedName cfg req) vname hv1 hv2 hv3 hv4
    rw [h1, h3, h4, h5] at hget
    simp [oor] at hget
    unfold valueMissing
    rw [hget]
    cases v with
    | vNone => exact absurd rfl h2
    | vStr s => rfl
    | vInt n => rfl
    | vBool b => rfl

/-- Claim C3 witness: a required variable with no value anywhere in a
concrete configuration makes resolution fail with the required-variable
error. -/
theorem claim_c3_required_variable_witness :
    ∃ w d2,
      dictGet
        (Config.declared_variables
          { declared_variables :=
              [("must_set", { description := none, values := [], strict := false, required := true })],
            project_environments := [("dev", { args := [("target", Val.vStr "dev")], vars := [] })],
            user_environments := [],
            default_environment := none }) w = some d2 ∧
      d2.required = true ∧
      valueMissing
        (mergedLayers
          { declared_variables :=
              [("must_set", { description := none, values := [], strict := false, required := true })],
            project_environments := [("dev", { args := [("target", Val.vStr "dev")], vars := [] })],
            user_environments := [],
            default_environment := none }
          (resolvedName
            { declared_variables :=
                [("must_set", { description := none, values := [], strict := false, required := true })],
              project_environments := [("dev", { args := [("target", Val.vStr "dev")], vars := [] })],
              user_environments := [],
              default_environment := none } (some "dev"))).vars w = true ∧
      resolve_environment
        { declared_variables :=
            [("must_set", { description := none, values := [], strict := false, required := true })],
          project_environments := [("dev", { args := [("target", Val.vStr "dev")], vars := [] })],
          user_environments := [],
          default_environment := none } (some "dev") = .error (requiredMsg w) :=
  (claim_c3_required_variable
    { declared_variables :=
        [("must_set", { description := none, values := [], strict := false, required := true })],
      project_environments := [("dev", { args := [("target", Val.vStr "dev")], vars := [] })],
      user_environments := [],
      default_environment := none }
    (some "dev") "must_set"
    { description := none, values := [], strict := false, required := true }
    (Val.vInt 42)
    (by decide) (by decide) (by decide) (by decide) (by decide)
    (by decide) rfl).1 (by decide) (by decide)

/-- Claim C5: whenever a present environment-configuration file (project or
user level) carries a root-level `vars` key, configuration loading fails
with the root-level-vars `ConfigError`; it never silently accepts it. -/
theorem claim_c5_root_vars_rejected (varsFile projFile userFile : Option (Dict YNode))
    (d : Dict YNode)
    (hf : projFile = some d ∨ userFile = some d)
    (hk : dictHasKey d "vars" = true) :
    load_config varsFile projFile userFile = .error rootVarsMsg := by
  cases hf with
  | inl hp =>
      subst hp
      unfold load_config checkNoRootVars
      dsimp only
      rw [hk]
      rfl
  | inr hu =>
      subst hu
      cases projFile with
      | none =>
          unfold load_config checkNoRootVars
          dsimp only
          rw [hk]
          rfl
      | some dp =>
          unfold load_config checkNoRootVars
          dsimp only
          by_cases hkp : dictHasKey dp "vars" = true
          · rw [hkp]
            rfl
          · have hkp2 : dictHasKey dp "vars" = false := by
              cases hdp : dictHasKey dp "vars" with
              | false => rfl
              | true => exact absurd hdp hkp
            rw [hkp2, hk]
            rfl

/-- Claim C5 witness: a project environment file with a root-level `vars`
key makes loading fail. -/
theorem claim_c5_root_vars_rejected_witness :
    load_config none (some [("vars", YNode.map []), ("environment", YNode.map [])]) none =
      .error rootVarsMsg :=
  claim_c5_root_vars_rejected none (some [("vars", YNode.map []), ("environment", YNode.map [])])
    none [("vars", YNode.map []), ("environment", YNode.map [])] (Or.inl rfl) (by decide)

end DotSpec
